import Mathlib

set_option maxHeartbeats 1000000

/-! Shallow embedding of the OCI registry client of the devkit repository
(package pkg/oci, files opts.go and types.go).

The client issues short fixed sequences of HTTP requests.  We model the
network as an oracle assigning to the n-th Do call of an operation either a
transport error (a string) or a Response.  Each operation is embedded as a
pure function returning its Go result together with the list of requests it
issued and, for every response it received, whether that response body had
been closed by the time the operation returned (tracking the source's
resp.Body.Close calls, including Go defer semantics: the receiver of a
deferred close is the body the response variable held when the defer
statement executed).

Request construction - http.NewRequest - is modelled as total: URL parsing
is a concern of the external net/url library and none of the properties
below depend on a construction failure path.  JSON marshalling and
unmarshalling of manifests are likewise external collaborators and are
passed in as oracle arguments. -/

/-- Repository coordinate, the Tag struct of pkg/oci/types.go. -/
structure Tag where
  Host : String
  Name : String
  Namespace : String
  Version : String
  deriving DecidableEq, Repr

/-- Content descriptor: only its digest string is consumed by the client. -/
structure Descriptor where
  Digest : String
  deriving DecidableEq, Repr

/-- Credentials held by the client, the OciCredentials struct of opts.go. -/
structure OciCredentials where
  Username : String
  Password : String
  encoded : String
  deriving DecidableEq, Repr

/-- The OciClient struct of opts.go: an optional credential holder. -/
structure OciClient where
  Credentials : Option OciCredentials
  deriving DecidableEq, Repr

/-- An HTTP request as assembled by the client: method, URL, headers in the
order the source adds them, query parameters and body bytes. -/
structure Request where
  Method : String
  URL : String
  Headers : List (String × String)
  Query : List (String × String)
  Body : List Nat
  deriving DecidableEq, Repr

/-- An HTTP response as consumed by the client: status code, status text,
the Location header value, and the outcome of reading the body. -/
structure Response where
  StatusCode : Nat
  Status : String
  Location : String
  BodyRead : Except String (List Nat)
  deriving Repr

/-- Outcome of one operation: the Go return value, the requests issued via
client.Do in order, and one flag per received response telling whether its
body was closed on the exit path taken. -/
structure OpResult (α : Type) where
  result : Except String α
  sent : List Request
  bodiesClosed : List Bool
  deriving Repr

/-- http.StatusUnauthorized. -/
def StatusUnauthorized : Nat := 401

/-- spec.MediaTypeImageManifest of the OCI image-spec module. -/
def MediaTypeImageManifest : String := "application/vnd.oci.image.manifest.v1+json"

/-- The authentication failure message the source returns on HTTP 401. -/
def unauthorizedMsg : String := "unauthorized, please use nori login to authenticate"

/-- The headers contributed by the source's conditional
Header.Add of Authorization when c.Credentials is non-nil. -/
def authHeaders (c : OciClient) : List (String × String) :=
  match c.Credentials with
  | some cr => [("Authorization", cr.encoded)]
  | none => []

/-- What Go's fmt produces for verb s applied to a pointer to a string: a
bad-verb artifact carrying the pointer's hex address, not the pointed-to
string.  addr stands for the hex digits of the runtime address. -/
def goStringPtrVerbS (addr : String) : String :=
  "%!s(*string=0x" ++ addr ++ ")"

/-- The protocol selection shared by PushBlob and PushManifest: http when
the Insecure flag is set, https otherwise. -/
def pushProtocol (insecure : Bool) : String :=
  if insecure then "http" else "https"

/-- Options of PushBlob, the PushBlobOptions struct of opts.go. -/
structure PushBlobOptions where
  Digest : Descriptor
  File : List Nat
  Name : String
  Insecure : Bool
  Tag : Tag
  deriving DecidableEq, Repr

/-- Options of PullBlob.  The source holds the tag behind a pointer and
dereferences it unconditionally, so it is modelled as a value. -/
structure PullBlobOptions where
  Digest : Descriptor
  Name : String
  Tag : Tag
  deriving DecidableEq, Repr

/-- The upload-init endpoint PushBlob builds (opts.go lines 52-57).  The
source interpolates a pointer to the host field, so the host position holds
the fmt bad-verb artifact, parameterised by the runtime address. -/
def pushBlobEndpoint (opts : PushBlobOptions) (hostAddr : String) : String :=
  let protocol := pushProtocol opts.Insecure
  if opts.Tag.Namespace ≠ "" then
    protocol ++ "://" ++ goStringPtrVerbS hostAddr ++ "/v2/" ++ opts.Tag.Namespace ++ "/" ++ opts.Tag.Name ++ "/blobs/uploads/"
  else
    protocol ++ "://" ++ goStringPtrVerbS hostAddr ++ "/v2/" ++ opts.Tag.Name ++ "/blobs/uploads/"

/-- The blob endpoint PullBlob builds (opts.go lines 109-114). -/
def pullBlobEndpoint (opts : PullBlobOptions) : String :=
  if opts.Tag.Namespace ≠ "" then
    "https://" ++ opts.Tag.Host ++ "/v2/" ++ opts.Tag.Namespace ++ "/" ++ opts.Tag.Name ++ "/blobs/" ++ opts.Digest.Digest
  else
    "https://" ++ opts.Tag.Host ++ "/v2/" ++ opts.Tag.Name ++ "/blobs/" ++ opts.Digest.Digest

/-- The endpoint PullManifest builds (opts.go lines 153-157).  The
namespace branch interleaves version and name positions; the other branch
passes five arguments to a four-verb format string, so Go appends an EXTRA
bad-argument artifact. -/
def pullManifestEndpoint (tag : Tag) : String :=
  if tag.Namespace ≠ "" then
    "https://" ++ tag.Host ++ "/" ++ tag.Namespace ++ "/" ++ tag.Name ++ "/v2/" ++ tag.Version ++ "/" ++ tag.Name ++ "/manifests/" ++ tag.Version
  else
    "https://" ++ tag.Host ++ "/v2/" ++ tag.Name ++ "/" ++ tag.Version ++ "/manifests/" ++ tag.Name ++ "%!(EXTRA string=" ++ tag.Version ++ ")"

/-- The manifest endpoint PushManifest builds (opts.go lines 207-217). -/
def pushManifestEndpoint (insecure : Bool) (tag : Tag) : String :=
  let protocol := pushProtocol insecure
  if tag.Namespace ≠ "" then
    protocol ++ "://" ++ tag.Host ++ "/v2/" ++ tag.Namespace ++ "/" ++ tag.Name ++ "/manifests/" ++ tag.Version
  else
    protocol ++ "://" ++ tag.Host ++ "/v2/" ++ tag.Name ++ "/manifests/" ++ tag.Version

/-- PushBlob (opts.go lines 44-106): GET the upload-init endpoint, expect
202, then PUT the content to the returned Location with the digest query
parameter, expect 201.  No response body is ever closed in the source. -/
def PushBlob (c : OciClient) (opts : PushBlobOptions) (hostAddr : String)
    (net : Nat → Except String Response) : OpResult Unit :=
  let endpoint := pushBlobEndpoint opts hostAddr
  let req : Request :=
    { Method := "GET", URL := endpoint, Headers := authHeaders c, Query := [], Body := [] }
  match net 0 with
  | Except.error e =>
    { result := Except.error ("error sending request: " ++ e), sent := [req], bodiesClosed := [] }
  | Except.ok resp =>
    if resp.StatusCode ≠ 202 then
      { result := Except.error ("failed to push blob: " ++ resp.Status), sent := [req], bodiesClosed := [false] }
    else
      let location := resp.Location
      let req2 : Request :=
        { Method := "PUT", URL := location,
          Headers := [("Content-Type", "application/octet-stream"),
                      ("Content-Length", toString opts.File.length)] ++ authHeaders c,
          Query := [("digest", opts.Digest.Digest)], Body := opts.File }
      match net 1 with
      | Except.error e =>
        { result := Except.error e, sent := [req, req2], bodiesClosed := [false] }
      | Except.ok resp2 =>
        if resp2.StatusCode ≠ 201 then
          if resp2.StatusCode = StatusUnauthorized then
            { result := Except.error unauthorizedMsg, sent := [req, req2], bodiesClosed := [false, false] }
          else
            { result := Except.error ("failed to push blob: " ++ resp2.Status), sent := [req, req2], bodiesClosed := [false, false] }
        else
          { result := Except.ok (), sent := [req, req2], bodiesClosed := [false, false] }

/-- PullBlob (opts.go lines 108-145): GET the blob endpoint, expect 200,
read the whole body.  The deferred close is registered only after the
status checks, so non-200 exits leave the body unclosed. -/
def PullBlob (c : OciClient) (opts : PullBlobOptions)
    (net : Nat → Except String Response) : OpResult (List Nat) :=
  let req : Request :=
    { Method := "GET", URL := pullBlobEndpoint opts, Headers := authHeaders c, Query := [], Body := [] }
  match net 0 with
  | Except.error e =>
    { result := Except.error ("error sending request: " ++ e), sent := [req], bodiesClosed := [] }
  | Except.ok resp =>
    if resp.StatusCode ≠ 200 then
      if resp.StatusCode = StatusUnauthorized then
        { result := Except.error unauthorizedMsg, sent := [req], bodiesClosed := [false] }
      else
        { result := Except.error ("failed to pull blob: " ++ resp.Status), sent := [req], bodiesClosed := [false] }
    else
      match resp.BodyRead with
      | Except.error e =>
        { result := Except.error ("error reading blob: " ++ e), sent := [req], bodiesClosed := [true] }
      | Except.ok data =>
        { result := Except.ok data, sent := [req], bodiesClosed := [true] }

/-- PullManifest (opts.go lines 147-197): require a host, GET the endpoint
with the image-manifest Accept header, expect 200, read and unmarshal the
body.  The deferred close is registered right after the request succeeds,
so every exit after a response was received closes the body. -/
def PullManifest {M : Type} (unmarshal : List Nat → Except String M)
    (c : OciClient) (tag : Tag) (net : Nat → Except String Response) : OpResult M :=
  if tag.Host = "" then
    { result := Except.error "Host is required, but not provided", sent := [], bodiesClosed := [] }
  else
    let req : Request :=
      { Method := "GET", URL := pullManifestEndpoint tag,
        Headers := [("Accept", MediaTypeImageManifest)] ++ authHeaders c, Query := [], Body := [] }
    match net 0 with
    | Except.error e =>
      { result := Except.error e, sent := [req], bodiesClosed := [] }
    | Except.ok resp =>
      if resp.StatusCode ≠ 200 then
        if resp.StatusCode = StatusUnauthorized then
          { result := Except.error unauthorizedMsg, sent := [req], bodiesClosed := [true] }
        else
          { result := Except.error ("cannot to pull manifest: " ++ resp.Status), sent := [req], bodiesClosed := [true] }
      else
        match resp.BodyRead with
        | Except.error e =>
          { result := Except.error e, sent := [req], bodiesClosed := [true] }
        | Except.ok bytes =>
          match unmarshal bytes with
          | Except.error e =>
            { result := Except.error e, sent := [req], bodiesClosed := [true] }
          | Except.ok m =>
            { result := Except.ok m, sent := [req], bodiesClosed := [true] }

/-- PushManifest (opts.go lines 199-266): marshal the manifest, HEAD the
manifest endpoint; on status 200 stop with success, otherwise PUT the JSON
body and expect 201.  The options struct is flattened into the tag, the
insecure flag and the marshalling outcome.  The deferred close binds the
HEAD response body, so the PUT response body is never closed. -/
def PushManifest (c : OciClient) (tag : Tag) (insecure : Bool)
    (marshalResult : Except String (List Nat))
    (net : Nat → Except String Response) : OpResult Unit :=
  match marshalResult with
  | Except.error e => { result := Except.error e, sent := [], bodiesClosed := [] }
  | Except.ok jsonBytes =>
    let endpoint := pushManifestEndpoint insecure tag
    let req : Request :=
      { Method := "HEAD", URL := endpoint,
        Headers := authHeaders c ++
          [("Content-Type", MediaTypeImageManifest),
           ("Content-Length", toString jsonBytes.length)],
        Query := [], Body := [] }
    match net 0 with
    | Except.error e =>
      { result := Except.error ("error sending request: " ++ e), sent := [req], bodiesClosed := [] }
    | Except.ok resp =>
      if resp.StatusCode ≠ 200 then
        let uploadReq : Request :=
          { Method := "PUT", URL := endpoint,
            Headers := [("Content-Type", MediaTypeImageManifest),
                        ("Content-Length", toString jsonBytes.length)] ++ authHeaders c,
            Query := [], Body := jsonBytes }
        match net 1 with
        | Except.error e =>
          { result := Except.error ("error sending request: " ++ e), sent := [req, uploadReq], bodiesClosed := [true] }
        | Except.ok resp2 =>
          if resp2.StatusCode ≠ 201 then
            if resp2.StatusCode = StatusUnauthorized then
              { result := Except.error unauthorizedMsg, sent := [req, uploadReq], bodiesClosed := [true, false] }
            else
              { result := Except.error ("failed to push manifest: " ++ resp2.Status), sent := [req, uploadReq], bodiesClosed := [true, false] }
          else
            { result := Except.ok (), sent := [req, uploadReq], bodiesClosed := [true, false] }
      else
        { result := Except.ok (), sent := [req], bodiesClosed := [true] }

/-- The standard base64 alphabet used by encoding/base64 StdEncoding. -/
def base64StdAlphabet : List Char :=
  "ABCDEFGHIJKLMNOPQRSTUVWXYZabcdefghijklmnopqrstuvwxyz0123456789+/".data

/-- Digit lookup into the standard base64 alphabet. -/
def base64Digit (n : Nat) : Char := base64StdAlphabet.getD n 'A'

/-- Standard base64 of a byte list with padding, the semantics of
encoding/base64 StdEncoding.EncodeToString. -/
def base64Encode : List Nat → String
  | [] => ""
  | [a] =>
    String.mk [base64Digit (a / 4), base64Digit (a % 4 * 16), '=', '=']
  | [a, b] =>
    String.mk [base64Digit (a / 4), base64Digit (a % 4 * 16 + b / 16), base64Digit (b % 16 * 4), '=']
  | a :: b :: c2 :: rest =>
    String.mk [base64Digit (a / 4), base64Digit (a % 4 * 16 + b / 16),
               base64Digit (b % 16 * 4 + c2 / 64), base64Digit (c2 % 64)] ++ base64Encode rest

/-- UTF-8 encoding of one character, the semantics of a Go string-to-byte
conversion per character. -/
def utf8EncodeChar (c : Char) : List Nat :=
  let n := c.toNat
  if n < 128 then [n]
  else if n < 2048 then [192 + n / 64, 128 + n % 64]
  else if n < 65536 then [224 + n / 4096, 128 + n / 64 % 64, 128 + n % 64]
  else [240 + n / 262144, 128 + n / 4096 % 64, 128 + n / 64 % 64, 128 + n % 64]

/-- The bytes of a Go string conversion: UTF-8 encoding of the text. -/
def utf8Bytes (s : String) : List Nat :=
  s.data.foldr (fun c acc => utf8EncodeChar c ++ acc) []

/-- SetBasicAuth (opts.go lines 268-277): encode username colon password in
base64, cache the full Basic header value, and overwrite the credential
holder wholesale.  The previous client state is discarded entirely. -/
def SetBasicAuth (_c : OciClient) (username password : String) : OciClient :=
  let userpass := username ++ ":" ++ password
  let encoded := base64Encode (utf8Bytes userpass)
  let authHeader := "Basic " ++ encoded
  { Credentials := some { Username := username, Password := password, encoded := authHeader } }

/-- GetCredentials (opts.go lines 279-281). -/
def GetCredentials (c : OciClient) : Option OciCredentials := c.Credentials

/-- NewOciClient (opts.go lines 287-289): a client with nil credentials. -/
def NewOciClient : OciClient := { Credentials := none }

/-! For SetCredentials the claim is about Go aliasing, so the credential
store is modelled with an explicit heap of credential cells.  The client
holds the index of its cell; a Go local variable of the caller is another
cell.  Passing the struct by value snapshots the cell's contents. -/

/-- A client whose Credentials pointer is an optional heap cell index. -/
structure ClientRef where
  Credentials : Option Nat
  deriving DecidableEq, Repr

/-- A heap of credential cells together with the client. -/
structure World where
  heap : List OciCredentials
  client : ClientRef
  deriving DecidableEq, Repr

/-- SetCredentials (opts.go lines 283-285): the parameter creds is a
by-value copy living in a fresh cell, and the client stores the address of
that fresh cell. -/
def SetCredentials (w : World) (creds : OciCredentials) : World :=
  { heap := w.heap ++ [creds], client := { Credentials := some w.heap.length } }

/-- A mutation of an arbitrary heap cell, such as the caller overwriting
their own local credentials variable. -/
def writeCell (w : World) (l : Nat) (v : OciCredentials) : World :=
  { heap := w.heap.set l v, client := w.client }

/-- The credential value the client currently observes through its stored
cell index. -/
def clientCreds (w : World) : Option OciCredentials :=
  match w.client.Credentials with
  | some l => w.heap[l]?
  | none => none

/-- The plain client the heap world denotes, for header construction. -/
def clientOf (w : World) : OciClient := { Credentials := clientCreds w }

/-! Concrete fixtures used by witnesses and counterexamples: the reference
of the spec's concrete scenario, the tag of the source's own PushBlob test,
and canned responses. -/

/-- The Reference of the spec's concrete scenario. -/
def exTag : Tag :=
  { Host := "registry.example.org", Name := "nginx", Namespace := "library", Version := "latest" }

/-- The same Reference with empty namespace. -/
def exTagNoNs : Tag :=
  { Host := "registry.example.org", Name := "nginx", Namespace := "", Version := "latest" }

/-- The tag of the source's own PushBlob unit test. -/
def testTag : Tag :=
  { Host := "localhost", Name := "testblob", Namespace := "", Version := "v1" }

/-- The PushBlob options of the source's own unit test. -/
def testPushOpts : PushBlobOptions :=
  { Digest := { Digest := "sha256:1234567890abcdef" }, File := [116, 101], Name := "testblob",
    Insecure := false, Tag := testTag }

/-- PullBlob options over the test tag. -/
def testPullOpts : PullBlobOptions :=
  { Digest := { Digest := "sha256:1234567890abcdef" }, Name := "testblob", Tag := testTag }

/-- A canned response with empty body. -/
def respOf (code : Nat) (status : String) (loc : String) : Response :=
  { StatusCode := code, Status := status, Location := loc, BodyRead := Except.ok [] }

/-- A 401 response. -/
def resp401 : Response := respOf 401 "401 Unauthorized" ""

/-- A network oracle answering the first call with r0 and every later call
with r1. -/
def netOf (r0 r1 : Except String Response) : Nat → Except String Response :=
  fun n => if n = 0 then r0 else r1

/-- A trivial manifest unmarshaller for instantiating PullManifest. -/
def unmarshalNat : List Nat → Except String Nat := fun _ => Except.ok 0

/-- Two strings disagreeing at some character position are different. -/
theorem str_ne_of_data {s t : String} {i : Nat} {a b : Char}
    (hs : s.data[i]? = some a) (ht : t.data[i]? = some b) (hab : a ≠ b) : s ≠ t := by
  intro h
  rw [h, ht] at hs
  exact hab (Option.some.inj hs).symm

/-- A string differs from an append whose left part disagrees with it at
some character position. -/
theorem str_ne_append {full q : String} {i : Nat} {a b : Char}
    (hf : full.data[i]? = some a) (hq : q.data[i]? = some b) (hab : a ≠ b)
    (t : String) : full ≠ q ++ t := by
  intro h
  have hiq : i < q.data.length := (List.getElem?_eq_some.mp hq).1
  rw [h, String.data_append, List.getElem?_append_left hiq, hq] at hf
  exact hab (Option.some.inj hf).symm

/-- C1: the claim says PullManifest GETs scheme://host/v2/ns/name/manifests/version.
The code instead builds host/ns/name/v2/version/name/manifests/version when a
namespace is set, and with an empty namespace appends a Go bad-argument
artifact; on the spec's concrete Reference the issued URL differs from the
claimed one.  This evidences the code bug at the failing input. -/
theorem c1_pullManifest_endpoint_bug :
    pullManifestEndpoint exTag
        = "https://registry.example.org/library/nginx/v2/latest/nginx/manifests/latest"
    ∧ pullManifestEndpoint exTag
        ≠ "https://registry.example.org/v2/library/nginx/manifests/latest"
    ∧ pullManifestEndpoint exTagNoNs
        = "https://registry.example.org/v2/nginx/latest/manifests/nginx%!(EXTRA string=latest)"
    ∧ pullManifestEndpoint exTagNoNs
        ≠ "https://registry.example.org/v2/nginx/manifests/latest"
    ∧ (PullManifest unmarshalNat NewOciClient exTag
          (netOf (Except.ok (respOf 200 "200 OK" "")) (Except.ok (respOf 200 "200 OK" "")))).sent.map
            (fun r => r.URL)
        = ["https://registry.example.org/library/nginx/v2/latest/nginx/manifests/latest"] :=
  ⟨by decide, by decide, by decide, by decide, by decide⟩

/-- C2: the claim says PushBlob GETs scheme://host/v2/name/blobs/uploads/ with
the host segment being the Reference's host string.  The source interpolates
a pointer to the host field, so for every runtime address the URL carries a
fmt bad-verb artifact instead of the host; on the source's own test tag the
issued URL never equals the one the test serves.  The namespace-omission
part of the claim holds, but the host part fails. -/
theorem c2_pushBlob_host_pointer_bug :
    ∀ addr : String,
      (PushBlob NewOciClient testPushOpts addr
          (netOf (Except.error "connection refused") (Except.error "connection refused"))).sent.map
            (fun r => r.URL)
        = [pushBlobEndpoint testPushOpts addr]
      ∧ pushBlobEndpoint testPushOpts addr ≠ "https://localhost/v2/testblob/blobs/uploads/" := by
  intro addr
  constructor
  · rfl
  · apply str_ne_of_data (i := 8) (a := '%') (b := 'l')
    · simp [pushBlobEndpoint, goStringPtrVerbS, pushProtocol, testPushOpts, testTag,
        String.data_append]
    · decide
    · decide

/-- C5: if the HEAD request of PushManifest is answered with status exactly
200, the operation succeeds and the only request issued is that HEAD - no
PUT is sent. -/
theorem c5_pushManifest_head200_no_put
    (c : OciClient) (tag : Tag) (insecure : Bool) (bs : List Nat)
    (net : Nat → Except String Response) (r : Response)
    (h0 : net 0 = Except.ok r) (h200 : r.StatusCode = 200) :
    (PushManifest c tag insecure (Except.ok bs) net).result = Except.ok ()
    ∧ (PushManifest c tag insecure (Except.ok bs) net).sent.map (fun q => q.Method) = ["HEAD"] := by
  constructor <;> simp [PushManifest, h0, h200]

/-- C5 witness: a concrete HEAD-200 run issues one HEAD and succeeds. -/
theorem c5_pushManifest_head200_no_put_witness :
    (PushManifest NewOciClient exTag false (Except.ok [1])
        (netOf (Except.ok (respOf 200 "200 OK" "")) (Except.ok (respOf 200 "200 OK" "")))).result
      = Except.ok ()
    ∧ (PushManifest NewOciClient exTag false (Except.ok [1])
        (netOf (Except.ok (respOf 200 "200 OK" "")) (Except.ok (respOf 200 "200 OK" "")))).sent.map
          (fun q => q.Method)
      = ["HEAD"] :=
  c5_pushManifest_head200_no_put NewOciClient exTag false [1] _ _ rfl rfl

/-- C6: PullManifest on a Reference with empty host fails immediately with
the configuration message, issues no request, and that message differs both
from the authentication message and from every protocol-failure message of
the operation. -/
theorem c6_pullManifest_empty_host
    {M : Type} (unmarshal : List Nat → Except String M) (c : OciClient)
    (tag : Tag) (net : Nat → Except String Response) (hh : tag.Host = "") :
    (PullManifest unmarshal c tag net).result = Except.error "Host is required, but not provided"
    ∧ (PullManifest unmarshal c tag net).sent = []
    ∧ "Host is required, but not provided" ≠ unauthorizedMsg
    ∧ (∀ s : String, "Host is required, but not provided" ≠ "cannot to pull manifest: " ++ s) := by
  refine ⟨by simp [PullManifest, hh], by simp [PullManifest, hh], by decide, fun s => ?_⟩
  apply str_ne_append (i := 0) (a := 'H') (b := 'c') <;> decide

/-- C6 witness: the empty-host Reference fails with the configuration
message and zero requests. -/
theorem c6_pullManifest_empty_host_witness :
    (PullManifest unmarshalNat NewOciClient { Host := "", Name := "nginx", Namespace := "", Version := "latest" }
        (netOf (Except.ok resp401) (Except.ok resp401))).result
      = Except.error "Host is required, but not provided"
    ∧ (PullManifest unmarshalNat NewOciClient { Host := "", Name := "nginx", Namespace := "", Version := "latest" }
        (netOf (Except.ok resp401) (Except.ok resp401))).sent = []
    ∧ "Host is required, but not provided" ≠ unauthorizedMsg
    ∧ (∀ s : String, "Host is required, but not provided" ≠ "cannot to pull manifest: " ++ s) :=
  c6_pullManifest_empty_host unmarshalNat NewOciClient _ _ rfl

/-- C9: SetCredentials snapshots the credentials value into a fresh cell,
so a later write to the caller's own cell leaves the credentials the client
observes - and hence the Authorization header it would attach - unchanged. -/
theorem c9_setCredentials_stores_copy
    (w : World) (lc : Nat) (v v' : OciCredentials) (hv : w.heap[lc]? = some v) :
    clientCreds (writeCell (SetCredentials w v) lc v') = some v
    ∧ authHeaders (clientOf (writeCell (SetCredentials w v) lc v'))
        = [("Authorization", v.encoded)] := by
  have hlt : lc < w.heap.length := (List.getElem?_eq_some.mp hv).1
  have hne : lc ≠ w.heap.length := Nat.ne_of_lt hlt
  have hcreds : clientCreds (writeCell (SetCredentials w v) lc v') = some v := by
    simp only [clientCreds, writeCell, SetCredentials]
    rw [List.getElem?_set_ne hne, List.getElem?_concat_length]
  exact ⟨hcreds, by simp [clientOf, authHeaders, hcreds]⟩

/-- C9 witness: with a one-cell heap holding the caller's variable, a write
to that variable after SetCredentials does not change what the client
observes. -/
theorem c9_setCredentials_stores_copy_witness :
    clientCreds (writeCell (SetCredentials
        { heap := [{ Username := "u", Password := "p", encoded := "Basic dTpw" }],
          client := { Credentials := none } }
        { Username := "u", Password := "p", encoded := "Basic dTpw" }) 0
        { Username := "x", Password := "y", encoded := "Basic other" })
      = some { Username := "u", Password := "p", encoded := "Basic dTpw" }
    ∧ authHeaders (clientOf (writeCell (SetCredentials
        { heap := [{ Username := "u", Password := "p", encoded := "Basic dTpw" }],
          client := { Credentials := none } }
        { Username := "u", Password := "p", encoded := "Basic dTpw" }) 0
        { Username := "x", Password := "y", encoded := "Basic other" }))
      = [("Authorization", "Basic dTpw")] :=
  c9_setCredentials_stores_copy _ 0 _
    { Username := "x", Password := "y", encoded := "Basic other" } rfl

/-- A 200 response. -/
def resp200 : Response := respOf 200 "200 OK" ""

/-- A 202 response carrying an upload location. -/
def resp202loc : Response := respOf 202 "202 Accepted" "/upload/location"

/-- A 201 response. -/
def resp201 : Response := respOf 201 "201 Created" ""

/-- A 404 response. -/
def resp404 : Response := respOf 404 "404 Not Found" ""

/-- C3 counterexample: a 401 on PushBlob's initial upload-init GET is
reported with the generic push-blob failure text, which is not the
distinguished authentication message, refuting the claim that every step
maps 401 to an authentication error. -/
theorem c3_counterexample_init_get_401_generic :
    (PushBlob NewOciClient testPushOpts "c000096000"
        (netOf (Except.ok resp401) (Except.ok resp401))).result
      = Except.error "failed to push blob: 401 Unauthorized"
    ∧ "failed to push blob: 401 Unauthorized" ≠ unauthorizedMsg :=
  ⟨rfl, by decide⟩

/-- C3 amended: an HTTP 401 yields the distinguished authentication error
on PushBlob's PUT step, on PullBlob, on PullManifest and on PushManifest's
PUT step, while on PushBlob's initial upload-init GET any non-202 status -
including 401 - is reported as the generic push-blob failure carrying the
status text. -/
theorem c3_amended_auth_error_mapping :
    (∀ (c : OciClient) (opts : PushBlobOptions) (addr : String)
        (net : Nat → Except String Response) (r : Response),
        net 0 = Except.ok r → r.StatusCode = 401 →
        (PushBlob c opts addr net).result
          = Except.error ("failed to push blob: " ++ r.Status))
    ∧ (∀ (c : OciClient) (opts : PushBlobOptions) (addr : String)
        (net : Nat → Except String Response) (r0 r1 : Response),
        net 0 = Except.ok r0 → r0.StatusCode = 202 →
        net 1 = Except.ok r1 → r1.StatusCode = 401 →
        (PushBlob c opts addr net).result = Except.error unauthorizedMsg)
    ∧ (∀ (c : OciClient) (opts : PullBlobOptions)
        (net : Nat → Except String Response) (r : Response),
        net 0 = Except.ok r → r.StatusCode = 401 →
        (PullBlob c opts net).result = Except.error unauthorizedMsg)
    ∧ (∀ (M : Type) (um : List Nat → Except String M) (c : OciClient) (tag : Tag)
        (net : Nat → Except String Response) (r : Response),
        tag.Host ≠ "" → net 0 = Except.ok r → r.StatusCode = 401 →
        (PullManifest um c tag net).result = Except.error unauthorizedMsg)
    ∧ (∀ (c : OciClient) (tag : Tag) (ins : Bool) (bs : List Nat)
        (net : Nat → Except String Response) (r0 r1 : Response),
        net 0 = Except.ok r0 → r0.StatusCode ≠ 200 →
        net 1 = Except.ok r1 → r1.StatusCode = 401 →
        (PushManifest c tag ins (Except.ok bs) net).result = Except.error unauthorizedMsg) := by
  refine ⟨?_, ?_, ?_, ?_, ?_⟩
  · intro c opts addr net r h0 h401
    simp [PushBlob, h0, h401]
  · intro c opts addr net r0 r1 h0 h202 h1 h401
    simp [PushBlob, h0, h202, h1, h401, StatusUnauthorized]
  · intro c opts net r h0 h401
    simp [PullBlob, h0, h401, StatusUnauthorized]
  · intro M um c tag net r hh h0 h401
    simp [PullManifest, hh, h0, h401, StatusUnauthorized]
  · intro c tag ins bs net r0 r1 h0 hne h1 h401
    simp [PushManifest, h0, hne, h1, h401, StatusUnauthorized]

/-- C3 amended witness: concrete 401 runs for each of the five steps. -/
theorem c3_amended_auth_error_mapping_witness :
    (PushBlob NewOciClient testPushOpts "c000096000"
        (netOf (Except.ok resp401) (Except.ok resp401))).result
      = Except.error ("failed to push blob: " ++ resp401.Status)
    ∧ (PushBlob NewOciClient testPushOpts "c000096000"
        (netOf (Except.ok resp202loc) (Except.ok resp401))).result
      = Except.error unauthorizedMsg
    ∧ (PullBlob NewOciClient testPullOpts
        (netOf (Except.ok resp401) (Except.ok resp401))).result
      = Except.error unauthorizedMsg
    ∧ (PullManifest unmarshalNat NewOciClient exTag
        (netOf (Except.ok resp401) (Except.ok resp401))).result
      = Except.error unauthorizedMsg
    ∧ (PushManifest NewOciClient exTag false (Except.ok [1])
        (netOf (Except.ok resp404) (Except.ok resp401))).result
      = Except.error unauthorizedMsg :=
  ⟨c3_amended_auth_error_mapping.1 _ _ _ _ _ rfl rfl,
   c3_amended_auth_error_mapping.2.1 _ _ _ _ _ _ rfl rfl rfl rfl,
   c3_amended_auth_error_mapping.2.2.1 _ _ _ _ rfl rfl,
   c3_amended_auth_error_mapping.2.2.2.1 _ unmarshalNat _ _ _ _ (by decide) rfl rfl,
   c3_amended_auth_error_mapping.2.2.2.2 _ _ _ _ _ _ _ rfl (by decide) rfl rfl⟩

/-- C4 counterexample: a fully successful PushBlob run receives two
responses and closes neither body, refuting the claim that every operation
closes every received response body on every exit path. -/
theorem c4_counterexample_pushBlob_unclosed :
    (PushBlob NewOciClient testPushOpts "c000096000"
        (netOf (Except.ok resp202loc) (Except.ok resp201))).result = Except.ok ()
    ∧ (PushBlob NewOciClient testPushOpts "c000096000"
        (netOf (Except.ok resp202loc) (Except.ok resp201))).bodiesClosed = [false, false] :=
  ⟨rfl, rfl⟩

/-- C4 amended: PullManifest closes its response body on every exit path
after a response was received, PushBlob closes none of its response bodies,
PushManifest closes the HEAD response body but never the PUT response body,
and PullBlob closes its body exactly on the paths where the status is
200. -/
theorem c4_amended_body_closing :
    (∀ (M : Type) (um : List Nat → Except String M) (c : OciClient) (tag : Tag)
        (net : Nat → Except String Response) (b : Bool),
        b ∈ (PullManifest um c tag net).bodiesClosed → b = true)
    ∧ (∀ (c : OciClient) (opts : PushBlobOptions) (addr : String)
        (net : Nat → Except String Response) (b : Bool),
        b ∈ (PushBlob c opts addr net).bodiesClosed → b = false)
    ∧ (∀ (c : OciClient) (tag : Tag) (ins : Bool) (mr : Except String (List Nat))
        (net : Nat → Except String Response),
        (PushManifest c tag ins mr net).bodiesClosed = []
        ∨ (PushManifest c tag ins mr net).bodiesClosed = [true]
        ∨ (PushManifest c tag ins mr net).bodiesClosed = [true, false])
    ∧ (∀ (c : OciClient) (opts : PullBlobOptions)
        (net : Nat → Except String Response) (r : Response),
        net 0 = Except.ok r →
        (r.StatusCode = 200 → (PullBlob c opts net).bodiesClosed = [true])
        ∧ (r.StatusCode ≠ 200 → (PullBlob c opts net).bodiesClosed = [false])) := by
  refine ⟨?_, ?_, ?_, ?_⟩
  · intro M um c tag net b hb
    by_cases hh : tag.Host = ""
    · simp [PullManifest, hh] at hb
    · rcases h0 : net 0 with e | r
      · simp [PullManifest, hh, h0] at hb
      · by_cases h200 : r.StatusCode = 200
        · rcases hbr : r.BodyRead with e2 | bytes
          · simp [PullManifest, hh, h0, h200, hbr] at hb
            exact hb
          · rcases hu : um bytes with e3 | m
            · simp [PullManifest, hh, h0, h200, hbr, hu] at hb
              exact hb
            · simp [PullManifest, hh, h0, h200, hbr, hu] at hb
              exact hb
        · by_cases h401 : r.StatusCode = StatusUnauthorized
          · simp [PullManifest, hh, h0, h200, h401, StatusUnauthorized] at hb
            exact hb
          · simp [PullManifest, hh, h0, h200, h401] at hb
            exact hb
  · intro c opts addr net b hb
    rcases h0 : net 0 with e | r
    · simp [PushBlob, h0] at hb
    · by_cases h202 : r.StatusCode = 202
      · rcases h1 : net 1 with e2 | r2
        · simp [PushBlob, h0, h202, h1] at hb
          exact hb
        · by_cases h201 : r2.StatusCode = 201
          · simp [PushBlob, h0, h202, h1, h201] at hb
            exact hb
          · by_cases h401 : r2.StatusCode = StatusUnauthorized
            · simp [PushBlob, h0, h202, h1, h201, h401, StatusUnauthorized] at hb
              exact hb
            · simp [PushBlob, h0, h202, h1, h201, h401] at hb
              exact hb
      · simp [PushBlob, h0, h202] at hb
        exact hb
  · intro c tag ins mr net
    rcases mr with e | bs
    · simp [PushManifest]
    · rcases h0 : net 0 with e | r
      · simp [PushManifest, h0]
      · by_cases h200 : r.StatusCode = 200
        · simp [PushManifest, h0, h200]
        · rcases h1 : net 1 with e2 | r2
          · simp [PushManifest, h0, h200, h1]
          · by_cases h201 : r2.StatusCode = 201
            · simp [PushManifest, h0, h200, h1, h201]
            · by_cases h401 : r2.StatusCode = StatusUnauthorized
              · simp [PushManifest, h0, h200, h1, h201, h401, StatusUnauthorized]
              · simp [PushManifest, h0, h200, h1, h201, h401]
  · intro c opts net r h0
    constructor
    · intro h200
      rcases hbr : r.BodyRead with e2 | data
      · simp [PullBlob, h0, h200, hbr]
      · simp [PullBlob, h0, h200, hbr]
    · intro hne
      by_cases h401 : r.StatusCode = StatusUnauthorized
      · simp [PullBlob, h0, hne, h401, StatusUnauthorized]
      · simp [PullBlob, h0, hne, h401]

/-- C4 amended witness: concrete runs exercising each closing fact. -/
theorem c4_amended_body_closing_witness :
    true = true
    ∧ false = false
    ∧ ((PushManifest NewOciClient exTag false (Except.ok [1])
          (netOf (Except.ok resp404) (Except.ok resp201))).bodiesClosed = []
        ∨ (PushManifest NewOciClient exTag false (Except.ok [1])
          (netOf (Except.ok resp404) (Except.ok resp201))).bodiesClosed = [true]
        ∨ (PushManifest NewOciClient exTag false (Except.ok [1])
          (netOf (Except.ok resp404) (Except.ok resp201))).bodiesClosed = [true, false])
    ∧ (PullBlob NewOciClient testPullOpts
        (netOf (Except.ok resp200) (Except.ok resp200))).bodiesClosed = [true] :=
  ⟨c4_amended_body_closing.1 Nat unmarshalNat NewOciClient exTag
      (netOf (Except.ok resp200) (Except.ok resp200)) true (by decide),
   c4_amended_body_closing.2.1 NewOciClient testPushOpts "c000096000"
      (netOf (Except.ok resp202loc) (Except.ok resp201)) false (by decide),
   c4_amended_body_closing.2.2.1 NewOciClient exTag false (Except.ok [1])
      (netOf (Except.ok resp404) (Except.ok resp201)),
   (c4_amended_body_closing.2.2.2 NewOciClient testPullOpts
      (netOf (Except.ok resp200) (Except.ok resp200)) resp200 rfl).1 rfl⟩

/-- Authorization entries of any request PushBlob sends are exactly the
ones contributed by the client's credential holder. -/
theorem pushBlob_auth_iff (c : OciClient) (opts : PushBlobOptions) (addr : String)
    (net : Nat → Except String Response) :
    ∀ req ∈ (PushBlob c opts addr net).sent, ∀ v : String,
      (("Authorization", v) ∈ req.Headers ↔ ("Authorization", v) ∈ authHeaders c) := by
  intro req hreq v
  rcases h0 : net 0 with e | r
  · simp [PushBlob, h0] at hreq
    subst hreq
    simp
  · by_cases h202 : r.StatusCode = 202
    · rcases h1 : net 1 with e2 | r2
      · simp [PushBlob, h0, h202, h1] at hreq
        rcases hreq with h | h <;> subst h <;> simp
      · by_cases h201 : r2.StatusCode = 201
        · simp [PushBlob, h0, h202, h1, h201] at hreq
          rcases hreq with h | h <;> subst h <;> simp
        · by_cases h401 : r2.StatusCode = StatusUnauthorized
          · simp [PushBlob, h0, h202, h1, h201, h401, StatusUnauthorized] at hreq
            rcases hreq with h | h <;> subst h <;> simp
          · simp [PushBlob, h0, h202, h1, h201, h401] at hreq
            rcases hreq with h | h <;> subst h <;> simp
    · simp [PushBlob, h0, h202] at hreq
      subst hreq
      simp

/-- Authorization entries of any request PullBlob sends are exactly the
ones contributed by the client's credential holder. -/
theorem pullBlob_auth_iff (c : OciClient) (opts : PullBlobOptions)
    (net : Nat → Except String Response) :
    ∀ req ∈ (PullBlob c opts net).sent, ∀ v : String,
      (("Authorization", v) ∈ req.Headers ↔ ("Authorization", v) ∈ authHeaders c) := by
  intro req hreq v
  rcases h0 : net 0 with e | r
  · simp [PullBlob, h0] at hreq
    subst hreq
    simp
  · by_cases h200 : r.StatusCode = 200
    · rcases hbr : r.BodyRead with e2 | data
      · simp [PullBlob, h0, h200, hbr] at hreq
        subst hreq
        simp
      · simp [PullBlob, h0, h200, hbr] at hreq
        subst hreq
        simp
    · by_cases h401 : r.StatusCode = StatusUnauthorized
      · simp [PullBlob, h0, h200, h401, StatusUnauthorized] at hreq
        subst hreq
        simp
      · simp [PullBlob, h0, h200, h401] at hreq
        subst hreq
        simp

/-- Authorization entries of any request PullManifest sends are exactly the
ones contributed by the client's credential holder. -/
theorem pullManifest_auth_iff {M : Type} (um : List Nat → Except String M)
    (c : OciClient) (tag : Tag) (net : Nat → Except String Response) :
    ∀ req ∈ (PullManifest um c tag net).sent, ∀ v : String,
      (("Authorization", v) ∈ req.Headers ↔ ("Authorization", v) ∈ authHeaders c) := by
  intro req hreq v
  by_cases hh : tag.Host = ""
  · simp [PullManifest, hh] at hreq
  · rcases h0 : net 0 with e | r
    · simp [PullManifest, hh, h0] at hreq
      subst hreq
      simp
    · by_cases h200 : r.StatusCode = 200
      · rcases hbr : r.BodyRead with e2 | bytes
        · simp [PullManifest, hh, h0, h200, hbr] at hreq
          subst hreq
          simp
        · rcases hu : um bytes with e3 | m
          · simp [PullManifest, hh, h0, h200, hbr, hu] at hreq
            subst hreq
            simp
          · simp [PullManifest, hh, h0, h200, hbr, hu] at hreq
            subst hreq
            simp
      · by_cases h401 : r.StatusCode = StatusUnauthorized
        · simp [PullManifest, hh, h0, h200, h401, StatusUnauthorized] at hreq
          subst hreq
          simp
        · simp [PullManifest, hh, h0, h200, h401] at hreq
          subst hreq
          simp

/-- Authorization entries of any request PushManifest sends are exactly the
ones contributed by the client's credential holder. -/
theorem pushManifest_auth_iff (c : OciClient) (tag : Tag) (ins : Bool)
    (mr : Except String (List Nat)) (net : Nat → Except String Response) :
    ∀ req ∈ (PushManifest c tag ins mr net).sent, ∀ v : String,
      (("Authorization", v) ∈ req.Headers ↔ ("Authorization", v) ∈ authHeaders c) := by
  intro req hreq v
  rcases mr with e | bs
  · simp [PushManifest] at hreq
  · rcases h0 : net 0 with e | r
    · simp [PushManifest, h0] at hreq
      subst hreq
      simp
    · by_cases h200 : r.StatusCode = 200
      · simp [PushManifest, h0, h200] at hreq
        subst hreq
        simp
      · rcases h1 : net 1 with e2 | r2
        · simp [PushManifest, h0, h200, h1] at hreq
          rcases hreq with h | h <;> subst h <;> simp
        · by_cases h201 : r2.StatusCode = 201
          · simp [PushManifest, h0, h200, h1, h201] at hreq
            rcases hreq with h | h <;> subst h <;> simp
          · by_cases h401 : r2.StatusCode = StatusUnauthorized
            · simp [PushManifest, h0, h200, h1, h201, h401, StatusUnauthorized] at hreq
              rcases hreq with h | h <;> subst h <;> simp
            · simp [PushManifest, h0, h200, h1, h201, h401] at hreq
              rcases hreq with h | h <;> subst h <;> simp

/-- A placeholder request for list head defaults in witnesses. -/
def emptyReq : Request := { Method := "", URL := "", Headers := [], Query := [], Body := [] }

/-- C7: after SetBasicAuth u p, every request any operation issues carries
the header Authorization with value Basic followed by the base64 of u colon
p; a later SetBasicAuth wholly replaces the stored credentials no matter
what was stored before, and the u p example encodes to dTpw. -/
theorem c7_basic_auth_header (u p : String) (c0 : OciClient) :
    (∀ (opts : PushBlobOptions) (addr : String) (net : Nat → Except String Response)
        (req : Request), req ∈ (PushBlob (SetBasicAuth c0 u p) opts addr net).sent →
        ("Authorization", "Basic " ++ base64Encode (utf8Bytes (u ++ ":" ++ p))) ∈ req.Headers)
    ∧ (∀ (opts : PullBlobOptions) (net : Nat → Except String Response)
        (req : Request), req ∈ (PullBlob (SetBasicAuth c0 u p) opts net).sent →
        ("Authorization", "Basic " ++ base64Encode (utf8Bytes (u ++ ":" ++ p))) ∈ req.Headers)
    ∧ (∀ (M : Type) (um : List Nat → Except String M) (tag : Tag)
        (net : Nat → Except String Response) (req : Request),
        req ∈ (PullManifest um (SetBasicAuth c0 u p) tag net).sent →
        ("Authorization", "Basic " ++ base64Encode (utf8Bytes (u ++ ":" ++ p))) ∈ req.Headers)
    ∧ (∀ (tag : Tag) (ins : Bool) (mr : Except String (List Nat))
        (net : Nat → Except String Response) (req : Request),
        req ∈ (PushManifest (SetBasicAuth c0 u p) tag ins mr net).sent →
        ("Authorization", "Basic " ++ base64Encode (utf8Bytes (u ++ ":" ++ p))) ∈ req.Headers)
    ∧ (∀ (u2 p2 : String), SetBasicAuth (SetBasicAuth c0 u p) u2 p2 = SetBasicAuth c0 u2 p2)
    ∧ authHeaders (SetBasicAuth c0 "u" "p") = [("Authorization", "Basic dTpw")] := by
  refine ⟨?_, ?_, ?_, ?_, fun u2 p2 => rfl, rfl⟩
  · intro opts addr net req hreq
    exact (pushBlob_auth_iff _ opts addr net req hreq _).mpr (by simp [SetBasicAuth, authHeaders])
  · intro opts net req hreq
    exact (pullBlob_auth_iff _ opts net req hreq _).mpr (by simp [SetBasicAuth, authHeaders])
  · intro M um tag net req hreq
    exact (pullManifest_auth_iff um _ tag net req hreq _).mpr (by simp [SetBasicAuth, authHeaders])
  · intro tag ins mr net req hreq
    exact (pushManifest_auth_iff _ tag ins mr net req hreq _).mpr (by simp [SetBasicAuth, authHeaders])

/-- C7 witness: on a concrete PullBlob run after SetBasicAuth u p, the
issued request carries Authorization Basic dTpw. -/
theorem c7_basic_auth_header_witness :
    ("Authorization", "Basic " ++ base64Encode (utf8Bytes ("u" ++ ":" ++ "p")))
      ∈ ((PullBlob (SetBasicAuth NewOciClient "u" "p") testPullOpts
            (netOf (Except.ok resp200) (Except.ok resp200))).sent.headD emptyReq).Headers :=
  (c7_basic_auth_header "u" "p" NewOciClient).2.1 testPullOpts
    (netOf (Except.ok resp200) (Except.ok resp200))
    ((PullBlob (SetBasicAuth NewOciClient "u" "p") testPullOpts
        (netOf (Except.ok resp200) (Except.ok resp200))).sent.headD emptyReq)
    (by decide)

/-- C10: a freshly constructed client holds nil credentials, and no
operation run with it attaches any Authorization header to any request. -/
theorem c10_no_auth_header_without_credentials :
    NewOciClient.Credentials = none
    ∧ (∀ (opts : PushBlobOptions) (addr : String) (net : Nat → Except String Response)
        (req : Request) (v : String), req ∈ (PushBlob NewOciClient opts addr net).sent →
        ("Authorization", v) ∉ req.Headers)
    ∧ (∀ (opts : PullBlobOptions) (net : Nat → Except String Response)
        (req : Request) (v : String), req ∈ (PullBlob NewOciClient opts net).sent →
        ("Authorization", v) ∉ req.Headers)
    ∧ (∀ (M : Type) (um : List Nat → Except String M) (tag : Tag)
        (net : Nat → Except String Response) (req : Request) (v : String),
        req ∈ (PullManifest um NewOciClient tag net).sent →
        ("Authorization", v) ∉ req.Headers)
    ∧ (∀ (tag : Tag) (ins : Bool) (mr : Except String (List Nat))
        (net : Nat → Except String Response) (req : Request) (v : String),
        req ∈ (PushManifest NewOciClient tag ins mr net).sent →
        ("Authorization", v) ∉ req.Headers) := by
  refine ⟨rfl, ?_, ?_, ?_, ?_⟩
  · intro opts addr net req v hreq hmem
    have := (pushBlob_auth_iff NewOciClient opts addr net req hreq v).mp hmem
    simp [authHeaders, NewOciClient] at this
  · intro opts net req v hreq hmem
    have := (pullBlob_auth_iff NewOciClient opts net req hreq v).mp hmem
    simp [authHeaders, NewOciClient] at this
  · intro M um tag net req v hreq hmem
    have := (pullManifest_auth_iff um NewOciClient tag net req hreq v).mp hmem
    simp [authHeaders, NewOciClient] at this
  · intro tag ins mr net req v hreq hmem
    have := (pushManifest_auth_iff NewOciClient tag ins mr net req hreq v).mp hmem
    simp [authHeaders, NewOciClient] at this

/-- C10 witness: on a concrete credential-less PullBlob run, the issued
request carries no Authorization header. -/
theorem c10_no_auth_header_without_credentials_witness :
    ("Authorization", "Basic dTpw")
      ∉ ((PullBlob NewOciClient testPullOpts
            (netOf (Except.ok resp200) (Except.ok resp200))).sent.headD emptyReq).Headers :=
  c10_no_auth_header_without_credentials.2.2.1 testPullOpts
    (netOf (Except.ok resp200) (Except.ok resp200))
    ((PullBlob NewOciClient testPullOpts
        (netOf (Except.ok resp200) (Except.ok resp200))).sent.headD emptyReq)
    "Basic dTpw" (by decide)

/-- C8: the scheme of the push endpoints is http exactly when the insecure
flag is set, the blob pull endpoint always uses https, and for each
endpoint the namespace appears as a slash-delimited segment when non-empty,
making the URL differ from the one built for the namespace-erased
Reference; when the namespace is empty the construction takes the branch
without the segment. -/
theorem c8_endpoint_construction :
    (∀ (opts : PushBlobOptions) (addr : String),
        ((∃ r : String, pushBlobEndpoint opts addr = "http://" ++ r) ↔ opts.Insecure = true))
    ∧ (∀ (ins : Bool) (tag : Tag),
        ((∃ r : String, pushManifestEndpoint ins tag = "http://" ++ r) ↔ ins = true))
    ∧ (∀ opts : PullBlobOptions, ∃ r : String, pullBlobEndpoint opts = "https://" ++ r)
    ∧ (∀ (opts : PushBlobOptions) (addr : String), opts.Tag.Namespace ≠ "" →
        (∃ x y : String, pushBlobEndpoint opts addr
            = x ++ ("/" ++ opts.Tag.Namespace ++ "/") ++ y)
        ∧ pushBlobEndpoint opts addr
            ≠ pushBlobEndpoint { opts with Tag := { opts.Tag with Namespace := "" } } addr)
    ∧ (∀ opts : PullBlobOptions, opts.Tag.Namespace ≠ "" →
        (∃ x y : String, pullBlobEndpoint opts
            = x ++ ("/" ++ opts.Tag.Namespace ++ "/") ++ y)
        ∧ pullBlobEndpoint opts
            ≠ pullBlobEndpoint { opts with Tag := { opts.Tag with Namespace := "" } })
    ∧ (∀ (ins : Bool) (tag : Tag), tag.Namespace ≠ "" →
        (∃ x y : String, pushManifestEndpoint ins tag
            = x ++ ("/" ++ tag.Namespace ++ "/") ++ y)
        ∧ pushManifestEndpoint ins tag ≠ pushManifestEndpoint ins { tag with Namespace := "" }) := by
  refine ⟨?_, ?_, ?_, ?_, ?_, ?_⟩
  · intro opts addr
    constructor
    · rintro ⟨r, hr⟩
      cases hb : opts.Insecure
      · exfalso
        by_cases hns : opts.Tag.Namespace = ""
        · refine str_ne_of_data (i := 4) (a := 's') (b := ':') ?_ ?_ (by decide) hr
          · simp [pushBlobEndpoint, pushProtocol, hb, hns, goStringPtrVerbS, String.data_append]
          · simp [String.data_append]
        · refine str_ne_of_data (i := 4) (a := 's') (b := ':') ?_ ?_ (by decide) hr
          · simp [pushBlobEndpoint, pushProtocol, hb, hns, goStringPtrVerbS, String.data_append]
          · simp [String.data_append]
      · rfl
    · intro hins
      by_cases hns : opts.Tag.Namespace = ""
      · refine ⟨goStringPtrVerbS addr ++ "/v2/" ++ opts.Tag.Name ++ "/blobs/uploads/", ?_⟩
        apply String.ext
        simp [pushBlobEndpoint, pushProtocol, hins, hns, goStringPtrVerbS,
          String.data_append, List.append_assoc]
      · refine ⟨goStringPtrVerbS addr ++ "/v2/" ++ opts.Tag.Namespace ++ "/" ++ opts.Tag.Name
            ++ "/blobs/uploads/", ?_⟩
        apply String.ext
        simp [pushBlobEndpoint, pushProtocol, hins, hns, goStringPtrVerbS,
          String.data_append, List.append_assoc]
  · intro ins tag
    constructor
    · rintro ⟨r, hr⟩
      cases hb : ins
      · exfalso
        by_cases hns : tag.Namespace = ""
        · refine str_ne_of_data (i := 4) (a := 's') (b := ':') ?_ ?_ (by decide) hr
          · simp [pushManifestEndpoint, pushProtocol, hb, hns, String.data_append]
          · simp [String.data_append]
        · refine str_ne_of_data (i := 4) (a := 's') (b := ':') ?_ ?_ (by decide) hr
          · simp [pushManifestEndpoint, pushProtocol, hb, hns, String.data_append]
          · simp [String.data_append]
      · rfl
    · intro hins
      by_cases hns : tag.Namespace = ""
      · refine ⟨tag.Host ++ "/v2/" ++ tag.Name ++ "/manifests/" ++ tag.Version, ?_⟩
        apply String.ext
        simp [pushManifestEndpoint, pushProtocol, hins, hns, String.data_append, List.append_assoc]
      · refine ⟨tag.Host ++ "/v2/" ++ tag.Namespace ++ "/" ++ tag.Name ++ "/manifests/"
            ++ tag.Version, ?_⟩
        apply String.ext
        simp [pushManifestEndpoint, pushProtocol, hins, hns, String.data_append, List.append_assoc]
  · intro opts
    by_cases hns : opts.Tag.Namespace = ""
    · refine ⟨opts.Tag.Host ++ "/v2/" ++ opts.Tag.Name ++ "/blobs/" ++ opts.Digest.Digest, ?_⟩
      apply String.ext
      simp [pullBlobEndpoint, hns, String.data_append, List.append_assoc]
    · refine ⟨opts.Tag.Host ++ "/v2/" ++ opts.Tag.Namespace ++ "/" ++ opts.Tag.Name ++ "/blobs/"
          ++ opts.Digest.Digest, ?_⟩
      apply String.ext
      simp [pullBlobEndpoint, hns, String.data_append, List.append_assoc]
  · intro opts addr hns
    constructor
    · refine ⟨pushProtocol opts.Insecure ++ "://" ++ goStringPtrVerbS addr ++ "/v2",
        opts.Tag.Name ++ "/blobs/uploads/", ?_⟩
      apply String.ext
      simp [pushBlobEndpoint, hns, goStringPtrVerbS, String.data_append, List.append_assoc]
    · intro heq
      have hlen := congrArg (fun s => s.data.length) heq
      simp [pushBlobEndpoint, hns, goStringPtrVerbS, String.data_append,
        List.length_append] at hlen
      omega
  · intro opts hns
    constructor
    · refine ⟨"https://" ++ opts.Tag.Host ++ "/v2",
        opts.Tag.Name ++ "/blobs/" ++ opts.Digest.Digest, ?_⟩
      apply String.ext
      simp [pullBlobEndpoint, hns, String.data_append, List.append_assoc]
    · intro heq
      have hlen := congrArg (fun s => s.data.length) heq
      simp [pullBlobEndpoint, hns, String.data_append, List.length_append] at hlen
      omega
  · intro ins tag hns
    constructor
    · refine ⟨pushProtocol ins ++ "://" ++ tag.Host ++ "/v2",
        tag.Name ++ "/manifests/" ++ tag.Version, ?_⟩
      apply String.ext
      simp [pushManifestEndpoint, hns, String.data_append, List.append_assoc]
    · intro heq
      have hlen := congrArg (fun s => s.data.length) heq
      simp [pushManifestEndpoint, hns, String.data_append, List.length_append] at hlen
      omega

/-- PushBlob options with the insecure flag set and a namespaced tag. -/
def insecureNsPushOpts : PushBlobOptions :=
  { Digest := { Digest := "sha256:1234567890abcdef" }, File := [], Name := "nginx",
    Insecure := true, Tag := exTag }

/-- C8 witness: concrete scheme and namespace facts on the fixtures. -/
theorem c8_endpoint_construction_witness :
    (∃ r : String, pushBlobEndpoint insecureNsPushOpts "c000096000" = "http://" ++ r)
    ∧ (∃ r : String, pullBlobEndpoint testPullOpts = "https://" ++ r)
    ∧ ((∃ x y : String, pushBlobEndpoint insecureNsPushOpts "c000096000"
          = x ++ ("/" ++ insecureNsPushOpts.Tag.Namespace ++ "/") ++ y)
        ∧ pushBlobEndpoint insecureNsPushOpts "c000096000"
          ≠ pushBlobEndpoint
              { insecureNsPushOpts with Tag := { insecureNsPushOpts.Tag with Namespace := "" } }
              "c000096000") :=
  ⟨(c8_endpoint_construction.1 insecureNsPushOpts "c000096000").mpr rfl,
   c8_endpoint_construction.2.2.1 testPullOpts,
   c8_endpoint_construction.2.2.2.1 insecureNsPushOpts "c000096000" (by decide)⟩
